import Mathlib

/-!
Shallow embedding of the South Carolina bill scraper
(`scrapers/sc/bills.py`) together with proofs about its
action classifier, index-page resolver, bill-type classifier,
vote-history parser, roll-call roster parser and the HTTP
protocol-downgrade wrapper.

Strings are modelled as Lean `String` (lists of characters).
Python string primitives (`startswith`, `in`, `strip`, `lower`,
`re.split`, `int`, `datetime.strptime`) are embedded as executable
functions over character lists; character classes are modelled over
the ASCII range that the scraped site and the source constants use.
-/

/-! ### Python string primitives -/

/-- ASCII whitespace, the characters stripped by Python `strip()` and
matched by the regex class `\s` on the data handled by this scraper. -/
def pyIsSpace (c : Char) : Bool :=
  c = ' ' || c = '\t' || c = '\n' || c = '\r' || c = Char.ofNat 11 || c = Char.ofNat 12

/-- Python `str.startswith` on character lists. -/
def pyStartsWith : List Char → List Char → Bool
  | [], _ => true
  | _ :: _, [] => false
  | p :: ps, c :: cs => p == c && pyStartsWith ps cs

/-- Python `needle in haystack` (substring containment) on character lists. -/
def listContainsSub (needle : List Char) : List Char → Bool
  | [] => pyStartsWith needle []
  | c :: cs => pyStartsWith needle (c :: cs) || listContainsSub needle cs

/-- Python `needle in haystack` on strings. -/
def pyContains (needle s : String) : Bool := listContainsSub needle.data s.data

/-- Python `str.strip()` on character lists. -/
def pyStripList (cs : List Char) : List Char :=
  ((cs.dropWhile pyIsSpace).reverse.dropWhile pyIsSpace).reverse

/-- Python `str.strip()`. -/
def pyStrip (s : String) : String := ⟨pyStripList s.data⟩

/-- ASCII lower-casing, Python `str.lower()` on the ASCII data
this scraper compares. -/
def lowerChars (cs : List Char) : List Char := cs.map Char.toLower

/-- Worker for `re.split` with pattern `\s{3,}` (or, for the
spec-side variant, a run of three or more literal spaces): `tok` is
the token being accumulated, `pend` the trailing run of separator
candidates not yet classified. A maximal run of three or more
characters satisfying `p` separates tokens; shorter runs stay inside
the token. -/
def splitRunsGo (p : Char → Bool) : List Char → List Char → List Char → List (List Char)
  | [], tok, pend => if pend.length ≥ 3 then [tok, []] else [tok ++ pend]
  | c :: rest, tok, pend =>
    if p c then splitRunsGo p rest tok (pend ++ [c])
    else if pend.length ≥ 3 then tok :: splitRunsGo p rest [c] []
    else splitRunsGo p rest (tok ++ pend ++ [c]) []

/-- Python `re.split` on runs of three or more characters satisfying `p`. -/
def splitRuns (p : Char → Bool) (cs : List Char) : List (List Char) :=
  splitRunsGo p cs [] []

/-- The split the source performs: `re.split(r"\s{3,}", line)`. -/
def pySplitWs3 (cs : List Char) : List (List Char) := splitRuns pyIsSpace cs

/-- Modelled from the spec: the claim and spec describe the roster
split as acting on runs of three or more consecutive *space*
characters; this definition follows those words (for comparison with
`pySplitWs3`, which embeds the source's `\s{3,}` regex). -/
def specSplitOnSpaceRuns (cs : List Char) : List (List Char) :=
  splitRuns (fun c => c = ' ') cs

/-- Python `str.replace("\xa0", " ")`: the pattern is a single character, so
the substring replacement is a character map. -/
def pyReplaceNbsp (s : String) : String :=
  ⟨s.data.map (fun c => if c.toNat = 160 then ' ' else c)⟩

deriving instance DecidableEq for Except

/-! ### Python exceptions -/

/-- The Python exceptions the embedded fragments can raise. -/
inductive PyErr where
  | valueError (msg : String)
  | assertionError
  | indexError
deriving DecidableEq

/-! ### Python `int` and `datetime.strptime` -/

def digitsToNat (ds : List Char) : Nat :=
  ds.foldl (fun acc c => acc * 10 + (c.toNat - 48)) 0

/-- Python `int(s)` on the decimal data this scraper parses:
surrounding whitespace is stripped, an optional sign is followed by a
non-empty digit run, anything else raises `ValueError`. -/
def pyInt (s : String) : Except PyErr Int :=
  let core : List Char → Bool → Except PyErr Int := fun ds neg =>
    if ds ≠ [] && ds.all Char.isDigit then
      .ok (if neg then -(digitsToNat ds : Int) else (digitsToNat ds : Int))
    else .error (.valueError ("invalid literal for int: " ++ s))
  match pyStripList s.data with
  | '+' :: rest => core rest false
  | '-' :: rest => core rest true
  | rest => core rest false

/-- The datetime produced by `datetime.strptime(_, "%m/%d/%Y %H:%M %p")`. -/
structure PyDateTime where
  year : Nat
  month : Nat
  day : Nat
  hour : Nat
  minute : Nat
deriving DecidableEq

/-- The `%m` and `%d` directives: a one-digit value `1..9` or a two-digit
value `1..maxV`; longer digit runs never match. -/
def parseMDField (maxV : Nat) (cs : List Char) : Except PyErr (Nat × List Char) :=
  let ds := cs.takeWhile Char.isDigit
  let rest := cs.dropWhile Char.isDigit
  let v := digitsToNat ds
  if ds.length = 1 && 1 ≤ v then .ok (v, rest)
  else if ds.length = 2 && 1 ≤ v && v ≤ maxV then .ok (v, rest)
  else .error (.valueError "time data does not match format")

/-- The `%H` and `%M` directives: any single digit, or a two-digit value
up to `maxV`. -/
def parseHMField (maxV : Nat) (cs : List Char) : Except PyErr (Nat × List Char) :=
  let ds := cs.takeWhile Char.isDigit
  let rest := cs.dropWhile Char.isDigit
  let v := digitsToNat ds
  if ds.length = 1 then .ok (v, rest)
  else if ds.length = 2 && v ≤ maxV then .ok (v, rest)
  else .error (.valueError "time data does not match format")

/-- The `%Y` directive: exactly four digits. -/
def parseYear4 (cs : List Char) : Except PyErr (Nat × List Char) :=
  let ds := cs.takeWhile Char.isDigit
  let rest := cs.dropWhile Char.isDigit
  if ds.length = 4 then .ok (digitsToNat ds, rest)
  else .error (.valueError "time data does not match format")

/-- A literal character of the format string. -/
def expectChar (c : Char) (cs : List Char) : Except PyErr (List Char) :=
  match cs with
  | c' :: rest => if c' = c then .ok rest else .error (.valueError "time data does not match format")
  | [] => .error (.valueError "time data does not match format")

/-- Whitespace in an strptime format matches one or more whitespace
characters. -/
def skipWs1 (cs : List Char) : Except PyErr (List Char) :=
  match cs with
  | c :: rest =>
    if pyIsSpace c then .ok (rest.dropWhile pyIsSpace)
    else .error (.valueError "time data does not match format")
  | [] => .error (.valueError "time data does not match format")

/-- The `%p` directive: `AM` or `PM`, case-insensitively.  With `%H` in
the format the parsed meridiem does not change the hour. -/
def parseAmPm (cs : List Char) : Except PyErr (List Char) :=
  match cs with
  | c1 :: c2 :: rest =>
    if (c1.toLower = 'a' || c1.toLower = 'p') && c2.toLower = 'm' then .ok rest
    else .error (.valueError "time data does not match format")
  | _ => .error (.valueError "time data does not match format")

def isLeapYear (y : Nat) : Bool := y % 4 = 0 && (y % 100 ≠ 0 || y % 400 = 0)

def daysInMonth (y m : Nat) : Nat :=
  if m = 2 then (if isLeapYear y then 29 else 28)
  else if m = 4 || m = 6 || m = 9 || m = 11 then 30
  else 31

/-- Python `datetime.strptime(s, "%m/%d/%Y %H:%M %p")`: the full string must
be consumed and the fields must form a valid date (the `datetime`
constructor rejects year 0 and days beyond the month length). -/
def strptimeVote (s : String) : Except PyErr PyDateTime := do
  let (month, r1) ← parseMDField 12 s.data
  let r2 ← expectChar '/' r1
  let (day, r3) ← parseMDField 31 r2
  let r4 ← expectChar '/' r3
  let (year, r5) ← parseYear4 r4
  let r6 ← skipWs1 r5
  let (hour, r7) ← parseHMField 23 r6
  let r8 ← expectChar ':' r7
  let (minute, r9) ← parseHMField 59 r8
  let r10 ← skipWs1 r9
  let r11 ← parseAmPm r10
  if r11 ≠ [] then throw (.valueError "unconverted data remains")
  else if year = 0 then throw (.valueError "year 0 is out of range")
  else if day > daysInMonth year month then throw (.valueError "day is out of range for month")
  else pure { year := year, month := month, day := day, hour := hour, minute := minute }

def padNat (width n : Nat) : String :=
  let s := toString n
  ⟨List.replicate (width - s.length) '0' ++ s.data⟩

/-- Python `datetime.strftime("%Y-%m-%d")`. -/
def strftimeYMD (d : PyDateTime) : String :=
  padNat 4 d.year ++ "-" ++ padNat 2 d.month ++ "-" ++ padNat 2 d.day

/-! ### Action classifier (`action_type`, bills.py lines 44-90) -/

/-- A classifier table entry yields either a single tag or a list of
tags, exactly as the Python tuples hold either a string or a list. -/
inductive PyClassification where
  | single (tag : String)
  | multi (tags : List String)
deriving DecidableEq

/-- The tags denoted by a classifier result. -/
def PyClassification.tags : PyClassification → List String
  | .single t => [t]
  | .multi ts => ts

/-- The ordered `classifiers` rule table, transcribed from the source. -/
def classifiers : List (String × PyClassification) :=
  [ ("Adopted", .single "passage"),
    ("Amended and adopted", .multi ["passage", "amendment-passage"]),
    ("Amended", .single "amendment-passage"),
    ("Certain items vetoed", .single "executive-veto-line-item"),
    ("Committed to", .single "referral-committee"),
    ("Committee Amendment Adopted", .single "amendment-passage"),
    ("Committee Amendment Amended and Adopted", .multi ["amendment-passage", "amendment-amendment"]),
    ("Committee Amendment Amended", .single "amendment-amendment"),
    ("Committee Amendment Tabled", .single "amendment-deferral"),
    ("Committee report: Favorable", .single "committee-passage-favorable"),
    ("Committee report: Majority favorable", .single "committee-passage"),
    ("House amendment amended", .single "amendment-amendment"),
    ("Introduced and adopted", .multi ["introduction", "passage"]),
    ("Introduced, adopted", .multi ["introduction", "passage"]),
    ("Introduced and read first time", .multi ["introduction", "reading-1"]),
    ("Introduced, read first time", .multi ["introduction", "reading-1"]),
    ("Introduced", .single "introduction"),
    ("Prefiled", .single "filing"),
    ("Read second time", .single "reading-2"),
    ("Read third time", .multi ["passage", "reading-3"]),
    ("Recommitted to Committee", .single "referral-committee"),
    ("Referred to Committee", .single "referral-committee"),
    ("Rejected", .single "failure"),
    ("Senate amendment amended", .single "amendment-amendment"),
    ("Signed by governor", .single "executive-signature"),
    ("Signed by Governor", .single "executive-signature"),
    ("Tabled", .single "failure"),
    ("Veto overridden", .single "veto-override-passage"),
    ("Veto sustained", .single "veto-override-failure"),
    ("Vetoed by Governor", .single "executive-veto") ]

/-- The classifier loop: `if action.lower().startswith(prefix.lower()):
return atype` for each rule in order, `None` when the loop falls through. -/
def actionTypeLoop (action : String) : List (String × PyClassification) → Option PyClassification
  | [] => none
  | (pfx, atype) :: rest =>
    if pyStartsWith (lowerChars pfx.data) (lowerChars action.data) then some atype
    else actionTypeLoop action rest

/-- The function `action_type(action)` from the source. -/
def action_type (action : String) : Option PyClassification :=
  actionTypeLoop action classifiers

/-! ### Index page resolver (`get_index_url`, bills.py lines 93-128) -/

/-- The static `web_archive_ids` snapshot table from the source. -/
def web_archive_ids : List (String × String) :=
  [ ("2017-2018-lower", "20181101144929"),
    ("2017-2018-upper", "20181101144422"),
    ("2019-2020-lower", "20201101155143"),
    ("2019-2020-upper", "20201101152857"),
    ("2021-2022-lower", "20221110101038"),
    ("2021-2022-upper", "20221110101352") ]

/-- Python `dict.get(key, None)` on an association list. -/
def dictGet (table : List (String × String)) (key : String) : Option String :=
  match table with
  | [] => none
  | (k, v) :: rest => if k = key then some v else dictGet rest key

/-- The function `get_index_url(session, chamber, chamber_letter)` from the source:
the direct introduction-index URL, wrapped behind the web-archive
snapshot prefix whenever the `session-chamber` key has a snapshot id. -/
def get_index_url (session chamber chamber_letter : String) : String :=
  let index_url := "https://www.scstatehouse.gov/sessphp/" ++ chamber_letter ++ "intros.php"
  match dictGet web_archive_ids (session ++ "-" ++ chamber) with
  | some web_archive_id =>
      "https://web.archive.org/web/" ++ web_archive_id ++ "/" ++ index_url
  | none => index_url

/-! ### Bill-type classification (`scrape_details`, bills.py lines 366-377) -/

/-- The bill-type `if/elif` chain of `scrape_details`: substring tests
in source order with a `ValueError` fall-through. -/
def scrapeDetailsBillType (bill_type : String) : Except String String :=
  if pyContains "General Bill" bill_type then .ok "bill"
  else if pyContains "Concurrent Resolution" bill_type then .ok "concurrent resolution"
  else if pyContains "Joint Resolution" bill_type then .ok "joint resolution"
  else if pyContains "Resolution" bill_type then .ok "resolution"
  else .error ("unknown bill type: " ++ bill_type)

/-! ### Roll-call roster parser (`scrape_rollcall`, bills.py lines 295-343) -/

/-- Which bound method `current_vfunc` holds: `vote.yes`, `vote.no`
or `vote.vote`. -/
inductive VFuncTag where
  | yesF
  | noF
  | voteF
deriving DecidableEq

/-- One recording call made by the roster loop: either
`current_vfunc(name)` or `current_vfunc(option=option, voter=name)`,
keeping which bound method was called and with which arguments. -/
inductive RollcallCall where
  | plain (vf : VFuncTag) (name : String)
  | withOpt (vf : VFuncTag) (opt : String) (name : String)
deriving DecidableEq

/-- The loop state of `scrape_rollcall`: the current recording
function and the `option` variable. -/
structure RCState where
  current_vfunc : Option VFuncTag
  option : Option String
deriving DecidableEq

/-- The call the name loop makes for one name. -/
def mkRollcallCall (f : VFuncTag) (opt : Option String) (name : List Char) : RollcallCall :=
  match opt with
  | none => .plain f ⟨pyStripList name⟩
  | some o => .withOpt f o ⟨pyStripList name⟩

/-- One iteration of the roster loop body on an (already split) line:
the line is stripped, the `if/elif` header chain may switch the state,
blank and `Page ` lines are skipped, and any other line is split on
`\s{3,}` into names recorded through the active function. -/
def rcProcessLine (st : RCState) (raw : String) : RCState × List RollcallCall :=
  let l := (pyStrip raw).data
  if pyStartsWith "YEAS".data l || pyStartsWith "AYES".data l then
    ({ st with current_vfunc := some .yesF }, [])
  else if pyStartsWith "NAYS".data l then
    ({ st with current_vfunc := some .noF }, [])
  else if pyStartsWith "EXCUSED".data l then
    ({ current_vfunc := some .voteF, option := some "excused" }, [])
  else if pyStartsWith "NOT VOTING".data l then
    ({ current_vfunc := some .voteF, option := some "excused" }, [])
  else if pyStartsWith "ABSTAIN".data l then
    ({ current_vfunc := some .voteF, option := some "excused" }, [])
  else if pyStartsWith "PAIRED".data l then
    ({ current_vfunc := some .voteF, option := some "paired" }, [])
  else if l = [] || pyStartsWith "Page ".data l then
    (st, [])
  else
    match st.current_vfunc with
    | some f =>
        (st, (pySplitWs3 l).filterMap (fun name =>
          if name = [] then none else some (mkRollcallCall f st.option name)))
    | none => (st, [])

/-- The roster loop over the lines of the converted document. -/
def rcRun (st : RCState) : List String → List RollcallCall
  | [] => []
  | l :: rest =>
    let (st', rs) := rcProcessLine st l
    rs ++ rcRun st' rest

/-- The method `scrape_rollcall` on the text lines of the roll-call document:
`current_vfunc = None`, `option = None`, then the line loop. -/
def scrape_rollcall (lines : List String) : List RollcallCall :=
  rcRun { current_vfunc := none, option := none } lines

/-- Names recorded through `vote.yes` with no option argument. -/
def yesNames (rs : List RollcallCall) : List String :=
  rs.filterMap (fun r => match r with | .plain .yesF n => some n | _ => none)

/-- Names recorded through `vote.no` with no option argument. -/
def noNames (rs : List RollcallCall) : List String :=
  rs.filterMap (fun r => match r with | .plain .noF n => some n | _ => none)

/-- Names recorded through `vote.vote` (the other bucket). -/
def otherNames (rs : List RollcallCall) : List String :=
  rs.filterMap (fun r => match r with
    | .plain .voteF n => some n
    | .withOpt .voteF _ n => some n
    | _ => none)

/-- Whether a stripped line starts with one of the headers that set
the `option` variable. -/
def setsOptionHeader (raw : String) : Bool :=
  let l := (pyStrip raw).data
  pyStartsWith "EXCUSED".data l || pyStartsWith "NOT VOTING".data l ||
    pyStartsWith "ABSTAIN".data l || pyStartsWith "PAIRED".data l

/-- Whether a recording call carried no option argument. -/
def RollcallCall.isPlain : RollcallCall → Bool
  | .plain _ _ => true
  | .withOpt _ _ _ => false

/-! ### Vote history parser (`scrape_vote_history`, bills.py lines 216-293) -/

/-- A table cell of the vote listing page: its text and the `(text,
href)` pairs of its anchor elements. -/
structure PCell where
  text : String
  anchors : List (String × String)
deriving DecidableEq

/-- The data extracted from one well-formed 11-cell row before the
deduplication check. -/
structure RowData where
  start_date : String
  motion_text : String
  linkText : String
  href : String
  yeasN : Int
  naysN : Int
  othersN : Int
  passed : String
  chamber : String
  recs : List RollcallCall
deriving DecidableEq

/-- The VoteEvent record built by `scrape_vote_history`. -/
structure SCVoteEvent where
  chamber : String
  start_date : String
  motion_text : String
  result : String
  classification : String
  bill : String
  yesCount : Int
  noCount : Int
  otherCount : Int
  sources : List String
  rollcall : List RollcallCall
  dedupe_key : Option String
deriving DecidableEq

/-- The parsing part of one 11-cell row of `scrape_vote_history`, in
source order: strptime on the timestamp, `int()` on the yea/nay
cells, `others` as `nv + exc + abst + pres`, the
`assert yeas + nays + others == int(total.text)`, result and chamber
texts, the vote-detail anchor, and the roll-call scrape of the linked
document (`pdf` maps a document URL to its converted text lines). -/
def parseVoteRow (pdf : String → List String)
    (timestamp motion vt yeas nays nv exc pres abst total result : PCell) :
    Except PyErr RowData :=
  match strptimeVote (pyReplaceNbsp timestamp.text) with
  | .error e => .error e
  | .ok ts =>
  match pyInt yeas.text with
  | .error e => .error e
  | .ok yeasN =>
  match pyInt nays.text with
  | .error e => .error e
  | .ok naysN =>
  match pyInt nv.text with
  | .error e => .error e
  | .ok nvN =>
  match pyInt exc.text with
  | .error e => .error e
  | .ok excN =>
  match pyInt abst.text with
  | .error e => .error e
  | .ok abstN =>
  match pyInt pres.text with
  | .error e => .error e
  | .ok presN =>
  match pyInt total.text with
  | .error e => .error e
  | .ok totalN =>
  if yeasN + naysN + (nvN + excN + abstN + presN) = totalN then
    match vt.anchors with
    | [] => .error .indexError
    | (ltext, lhref) :: _ =>
        .ok { start_date := strftimeYMD ts,
              motion_text := motion.text,
              linkText := ltext,
              href := lhref,
              yeasN := yeasN,
              naysN := naysN,
              othersN := nvN + excN + abstN + presN,
              passed := if result.text = "Passed" then "pass" else "fail",
              chamber := if pyContains "[H]" ltext then "lower" else "upper",
              recs := scrape_rollcall (pdf lhref) }
  else .error .assertionError

/-- The VoteEvent object as built before the deduplication check:
classification is the literal `"passage"`, the sources are the
listing page and the roll-call document, the dedupe key is not yet
set. -/
def buildVote (bill vurl : String) (rd : RowData) : SCVoteEvent :=
  { chamber := rd.chamber,
    start_date := rd.start_date,
    motion_text := rd.motion_text,
    result := rd.passed,
    classification := "passage",
    bill := bill,
    yesCount := rd.yeasN,
    noCount := rd.naysN,
    otherCount := rd.othersN,
    sources := [vurl, rd.href],
    rollcall := rd.recs,
    dedupe_key := none }

/-- One 11-cell row end to end: parse, then the `_seen_vote_ids`
check — an already seen roll-call URL is logged and skipped, a fresh
one is added to the seen set and the vote is yielded with
`dedupe_key` set to the document URL. Returns the optional yielded
vote, the updated seen set and the warnings logged. -/
def processRow11 (pdf : String → List String) (bill vurl : String) (seen : List String)
    (timestamp motion vt yeas nays nv exc pres abst total result : PCell) :
    Except PyErr (Option SCVoteEvent × List String × List String) :=
  match parseVoteRow pdf timestamp motion vt yeas nays nv exc pres abst total result with
  | .error e => .error e
  | .ok rd =>
    if rd.href ∈ seen then
      .ok (none, seen, ["duplicate usage of " ++ rd.href ++ ", skipping"])
    else
      .ok (some { buildVote bill vurl rd with dedupe_key := some rd.href },
           rd.href :: seen, [])

/-- The outcome of running the row loop of `scrape_vote_history`:
the votes yielded so far, the final seen set, the warnings logged,
and the exception that aborted the generator, if any. -/
structure VHRun where
  votes : List SCVoteEvent
  seen : List String
  warnings : List String
  err : Option PyErr
deriving DecidableEq

/-- The row loop: a row destructures into eleven cells or is logged
as irregular and skipped; an exception aborts the loop, a yielded
vote threads the updated seen set. -/
def vhRun (pdf : String → List String) (bill vurl : String) :
    List (List PCell) → List String → VHRun
  | [], seen => { votes := [], seen := seen, warnings := [], err := none }
  | tds :: rest, seen =>
    match tds with
    | [timestamp, motion, vt, yeas, nays, nv, exc, pres, abst, total, result] =>
      match processRow11 pdf bill vurl seen timestamp motion vt yeas nays nv exc pres abst total result with
      | .error e => { votes := [], seen := seen, warnings := [], err := some e }
      | .ok (none, seen', w) =>
        { votes := (vhRun pdf bill vurl rest seen').votes,
          seen := (vhRun pdf bill vurl rest seen').seen,
          warnings := w ++ (vhRun pdf bill vurl rest seen').warnings,
          err := (vhRun pdf bill vurl rest seen').err }
      | .ok (some v, seen', w) =>
        { votes := v :: (vhRun pdf bill vurl rest seen').votes,
          seen := (vhRun pdf bill vurl rest seen').seen,
          warnings := w ++ (vhRun pdf bill vurl rest seen').warnings,
          err := (vhRun pdf bill vurl rest seen').err }
    | _ =>
      { votes := (vhRun pdf bill vurl rest seen).votes,
        seen := (vhRun pdf bill vurl rest seen).seen,
        warnings := ("irregular vote row: " ++ vurl) :: (vhRun pdf bill vurl rest seen).warnings,
        err := (vhRun pdf bill vurl rest seen).err }

/-- The method `scrape_vote_history(bill, vurl)` on the rows of the listing
table: the first two rows are header rows and are dropped
(`doc.xpath("//table/tr")[2:]`), then the row loop runs. -/
def scrape_vote_history (pdf : String → List String) (bill vurl : String)
    (pageRows : List (List PCell)) (seen : List String) : VHRun :=
  vhRun pdf bill vurl (pageRows.drop 2) seen

/-- The vote-history calls of one whole scrape run: `scrape()` sets
`self._seen_vote_ids = set()` once, and every listing page scraped
thereafter threads that same seen set; an exception aborts the run. -/
def runVoteHistories (pdf : String → List String) (bill : String) :
    List (String × List (List PCell)) → List String → VHRun
  | [], seen => { votes := [], seen := seen, warnings := [], err := none }
  | (vurl, pageRows) :: pages, seen =>
    match (scrape_vote_history pdf bill vurl pageRows seen).err with
    | some e =>
      { votes := (scrape_vote_history pdf bill vurl pageRows seen).votes,
        seen := (scrape_vote_history pdf bill vurl pageRows seen).seen,
        warnings := (scrape_vote_history pdf bill vurl pageRows seen).warnings,
        err := some e }
    | none =>
      { votes := (scrape_vote_history pdf bill vurl pageRows seen).votes ++
          (runVoteHistories pdf bill pages (scrape_vote_history pdf bill vurl pageRows seen).seen).votes,
        seen := (runVoteHistories pdf bill pages (scrape_vote_history pdf bill vurl pageRows seen).seen).seen,
        warnings := (scrape_vote_history pdf bill vurl pageRows seen).warnings ++
          (runVoteHistories pdf bill pages (scrape_vote_history pdf bill vurl pageRows seen).seen).warnings,
        err := (runVoteHistories pdf bill pages (scrape_vote_history pdf bill vurl pageRows seen).seen).err }

/-! ### HTTP protocol downgrade (`toggle_http_version`, bills.py lines 19-41) -/

/-- The process-wide `http.client.HTTPConnection` protocol-version
settings `_http_vsn` and `_http_vsn_str`. -/
structure HttpState where
  vsn : Int
  vsnStr : String
deriving DecidableEq

/-- The values captured at import time into `_HTTP_VSN` and
`_HTTP_VSN_STR` are a module-level snapshot of the state; they are
passed here as `s0`. -/
def downgrade_http_version (_s : HttpState) : HttpState :=
  { vsn := 10, vsnStr := "HTTP/1.0" }

def undo_downgrade_http_version (s0 _s : HttpState) : HttpState := s0

/-- The `toggle_http_version` decorator: downgrade, run the wrapped
method, undo, return.  The wrapped method transforms the process
state and either returns a response or raises; a raise propagates
without the undo running (the source has no `try/finally`). -/
def toggle_http_version {E A : Type} (s0 : HttpState)
    (method : HttpState → HttpState × Except E A) (s : HttpState) :
    HttpState × Except E A :=
  let s1 := downgrade_http_version s
  let (s2, r) := method s1
  match r with
  | .ok a => (undo_downgrade_http_version s0 s2, .ok a)
  | .error e => (s2, .error e)

/-- The method `downgraded_http_get`: `self.get` wrapped by the decorator. -/
def downgraded_http_get {E A : Type} (s0 : HttpState)
    (get : String → HttpState → HttpState × Except E A) (url : String) (s : HttpState) :
    HttpState × Except E A :=
  toggle_http_version s0 (get url) s

/-- The method `downgraded_http_post`: `self.post` wrapped by the decorator. -/
def downgraded_http_post {E A : Type} (s0 : HttpState)
    (post : String → String → HttpState → HttpState × Except E A)
    (url body : String) (s : HttpState) : HttpState × Except E A :=
  toggle_http_version s0 (post url body) s

/-- A request that raises without touching the version settings, used
to exercise the exception path of the decorator. -/
def raisingGet (_url : String) (s : HttpState) : HttpState × Except Unit Unit :=
  (s, .error ())

/-- Whether a stripped line starts with any of the seven recognized
roster section headers. -/
def isRosterHeader (raw : String) : Bool :=
  let l := (pyStrip raw).data
  pyStartsWith "YEAS".data l || pyStartsWith "AYES".data l ||
    pyStartsWith "NAYS".data l || setsOptionHeader raw

/-! ### Concrete fixtures used by witnesses -/

/-- A plain table cell with the given text and no anchors. -/
def cellT (s : String) : PCell := { text := s, anchors := [] }

def sampleTsCell : PCell := cellT "01/12/2021 10:30 AM"

def sampleMotionCell : PCell := cellT "Adopt"

/-- The vote-link cell: its anchor marks the lower chamber and points
at the roll-call document. -/
def sampleVoteCell : PCell := { text := "", anchors := [("[H] View", "http://doc1.pdf")] }

/-- A well-formed 11-cell row: 3 + 2 + (0 + 0 + 0 + 0) = 5. -/
def sampleGoodRow : List PCell :=
  [sampleTsCell, sampleMotionCell, sampleVoteCell, cellT "3", cellT "2",
    cellT "0", cellT "0", cellT "0", cellT "0", cellT "5", cellT "Passed"]

/-- An 11-cell row whose reported total disagrees with the counts:
3 + 2 + (0 + 0 + 0 + 0) is not 9. -/
def sampleBadCountRow : List PCell :=
  [sampleTsCell, sampleMotionCell, sampleVoteCell, cellT "3", cellT "2",
    cellT "0", cellT "0", cellT "0", cellT "0", cellT "9", cellT "Passed"]

/-- A document-to-text collaborator returning a fixed tiny roster. -/
def samplePdf : String → List String := fun _ => ["YEAS", "Smith"]

/-- A default VoteEvent used only to total `List.headD` in witnesses. -/
def dummyVote : SCVoteEvent :=
  { chamber := "", start_date := "", motion_text := "", result := "",
    classification := "", bill := "", yesCount := 0, noCount := 0,
    otherCount := 0, sources := [], rollcall := [], dedupe_key := none }

/-! ## Theorems -/

/-! ### String lemmas -/

theorem pyStartsWith_eq_isPrefixOf (p s : List Char) :
    pyStartsWith p s = p.isPrefixOf s := by
  induction p generalizing s with
  | nil => simp [pyStartsWith, List.isPrefixOf]
  | cons a as ih =>
    cases s with
    | nil => simp [pyStartsWith, List.isPrefixOf]
    | cons b bs => simp [pyStartsWith, List.isPrefixOf, ih]

theorem pyStartsWith_iff (p s : List Char) :
    pyStartsWith p s = true ↔ ∃ t, s = p ++ t := by
  rw [pyStartsWith_eq_isPrefixOf, List.isPrefixOf_iff_prefix]
  constructor
  · rintro ⟨t, ht⟩
    exact ⟨t, ht.symm⟩
  · rintro ⟨t, ht⟩
    exact ⟨t, ht.symm⟩

theorem pyStartsWith_append_self (p t : List Char) :
    pyStartsWith p (p ++ t) = true :=
  (pyStartsWith_iff p (p ++ t)).mpr ⟨t, rfl⟩

theorem lowerChars_append (a b : List Char) :
    lowerChars (a ++ b) = lowerChars a ++ lowerChars b :=
  List.map_append Char.toLower a b

theorem listContainsSub_nil_left (h : List Char) :
    listContainsSub [] h = true := by
  cases h <;> simp [listContainsSub, pyStartsWith]

theorem listContainsSub_append_middle (n m t : List Char) :
    listContainsSub n (m ++ (n ++ t)) = true := by
  induction m with
  | nil =>
    cases n with
    | nil => simp [listContainsSub_nil_left]
    | cons c cs =>
      have hp : pyStartsWith (c :: cs) ((c :: cs) ++ t) = true :=
        pyStartsWith_append_self (c :: cs) t
      simp only [List.nil_append, List.cons_append, listContainsSub, Bool.or_eq_true]
      exact Or.inl hp
  | cons c m ih =>
    simp only [List.cons_append, listContainsSub]
    simp [ih]

theorem listContainsSub_of_startsWith {n s : List Char}
    (h : pyStartsWith n s = true) : listContainsSub n s = true := by
  cases s with
  | nil =>
    cases n with
    | nil => simp [listContainsSub, pyStartsWith]
    | cons c cs => simp [pyStartsWith] at h
  | cons c cs => simp [listContainsSub, h]

theorem listContainsSub_suffix {n1 n2 h : List Char}
    (hc : listContainsSub (n1 ++ n2) h = true) : listContainsSub n2 h = true := by
  induction h with
  | nil =>
    cases n1 with
    | nil =>
      simpa using hc
    | cons c cs =>
      simp [listContainsSub, pyStartsWith] at hc
  | cons c cs ih =>
    simp only [listContainsSub, Bool.or_eq_true] at hc
    rcases hc with hs | hrest
    · obtain ⟨t, ht⟩ := (pyStartsWith_iff _ _).mp hs
      rw [ht, List.append_assoc]
      exact listContainsSub_append_middle n2 n1 t
    · simp only [listContainsSub, Bool.or_eq_true]
      exact Or.inr (ih hrest)

/-! ### Claim C1: action classifier -/

theorem actionTypeLoop_eq_find (action : String) (l : List (String × PyClassification)) :
    actionTypeLoop action l =
      (l.find? (fun r => pyStartsWith (lowerChars r.1.data) (lowerChars action.data))).map Prod.snd := by
  induction l with
  | nil => simp [actionTypeLoop]
  | cons r rest ih =>
    obtain ⟨pfx, atype⟩ := r
    by_cases h : pyStartsWith (lowerChars pfx.data) (lowerChars action.data) = true
    · simp [actionTypeLoop, h, List.find?_cons_of_pos]
    · simp only [Bool.not_eq_true] at h
      simp [actionTypeLoop, h, List.find?_cons_of_neg, ih]

/-- Claim C1: the action classifier tests the action string
case-insensitively against each rule of the ordered table in list
order and returns the tags of the first matching rule, returns no
classification when no rule matches, and classifies every string
starting with `Amended and adopted` as the multi-tag
`[passage, amendment-passage]` rather than reaching the later bare
`Amended` rule. -/
theorem claim_C1_action_classifier (action : String) :
    action_type action =
      (classifiers.find? (fun r => pyStartsWith (lowerChars r.1.data) (lowerChars action.data))).map Prod.snd
    ∧ ((∀ r ∈ classifiers,
          pyStartsWith (lowerChars r.1.data) (lowerChars action.data) = false) →
        action_type action = none)
    ∧ (pyStartsWith "Amended and adopted".data action.data = true →
        action_type action = some (.multi ["passage", "amendment-passage"])) := by
  refine ⟨actionTypeLoop_eq_find action classifiers, ?_, ?_⟩
  · intro hnone
    rw [action_type, actionTypeLoop_eq_find]
    rw [List.find?_eq_none.mpr (fun r hr => by simp [hnone r hr])]
    rfl
  · intro h
    obtain ⟨t, ht⟩ := (pyStartsWith_iff _ _).mp h
    have e1 : lowerChars "Adopted".data = "adopted".data := by decide
    have e2 : lowerChars "Amended and adopted".data = "amended and adopted".data := by decide
    have h1 : pyStartsWith (lowerChars "Adopted".data) (lowerChars action.data) = false := by
      rw [e1, ht, lowerChars_append, e2]
      simp [pyStartsWith]
    have h2 : pyStartsWith (lowerChars "Amended and adopted".data) (lowerChars action.data) = true := by
      rw [ht, lowerChars_append, e2]
      exact pyStartsWith_append_self _ _
    simp [action_type, classifiers, actionTypeLoop, h1, h2]

/-- Witness for C1 at a concrete action string. -/
theorem claim_C1_witness :
    action_type "Amended and adopted, returned to the House" =
      some (.multi ["passage", "amendment-passage"]) :=
  (claim_C1_action_classifier "Amended and adopted, returned to the House").2.2 (by decide)

/-! ### Claim C7: index page resolver -/

/-- Claim C7: `get_index_url` returns the archive-wrapped URL (fixed
archive prefix, snapshot id from the static table, then the direct
URL) exactly when the `(session, chamber)` pair has a snapshot-table
entry, and the direct URL unmodified otherwise; session `2019-2020`
with chamber `upper` resolves to an archived URL containing snapshot
id `20201101152857`, while `2023-2024` upper resolves to the direct
non-archived URL. -/
theorem claim_C7_index_resolver :
    (∀ session chamber chamber_letter wid,
        dictGet web_archive_ids (session ++ "-" ++ chamber) = some wid →
        get_index_url session chamber chamber_letter =
          "https://web.archive.org/web/" ++ wid ++ "/" ++
            ("https://www.scstatehouse.gov/sessphp/" ++ chamber_letter ++ "intros.php"))
    ∧ (∀ session chamber chamber_letter,
        dictGet web_archive_ids (session ++ "-" ++ chamber) = none →
        get_index_url session chamber chamber_letter =
          "https://www.scstatehouse.gov/sessphp/" ++ chamber_letter ++ "intros.php")
    ∧ get_index_url "2019-2020" "upper" "s" =
        "https://web.archive.org/web/20201101152857/https://www.scstatehouse.gov/sessphp/sintros.php"
    ∧ pyContains "20201101152857" (get_index_url "2019-2020" "upper" "s") = true
    ∧ get_index_url "2023-2024" "upper" "s" = "https://www.scstatehouse.gov/sessphp/sintros.php"
    ∧ pyContains "web.archive.org" (get_index_url "2023-2024" "upper" "s") = false := by
  refine ⟨?_, ?_, by decide, by decide, by decide, by decide⟩
  · intro session chamber chamber_letter wid h
    simp [get_index_url, h]
  · intro session chamber chamber_letter h
    simp [get_index_url, h]

/-- Witness for C7 at a concrete table entry and a concrete absent
entry. -/
theorem claim_C7_witness :
    get_index_url "2017-2018" "lower" "h" =
      "https://web.archive.org/web/20181101144929/https://www.scstatehouse.gov/sessphp/hintros.php" := by
  have h := claim_C7_index_resolver.1 "2017-2018" "lower" "h" "20181101144929" (by decide)
  rw [h]
  decide

/-! ### Claim C4: bill-type classification -/

/-- Counterexample for C4 as stated: the label
`General Bill Joint Resolution` contains the substring
`Joint Resolution`, yet the `if/elif` chain classifies it as `bill`
because the `General Bill` test runs first. -/
theorem claim_C4_counterexample :
    pyContains "Joint Resolution" "General Bill Joint Resolution" = true
    ∧ scrapeDetailsBillType "General Bill Joint Resolution" = .ok "bill"
    ∧ scrapeDetailsBillType "General Bill Joint Resolution" ≠ .ok "joint resolution" :=
  ⟨by decide, by decide, by decide⟩

/-- Claim C4 (amended): the chain tests `General Bill`,
`Concurrent Resolution`, `Joint Resolution`, `Resolution` in that
fixed order, first match winning; a label containing
`Joint Resolution` and containing neither `General Bill` nor
`Concurrent Resolution` classifies as `joint resolution` even though
it also contains the substring `Resolution`; every accepted label
gets exactly one of the four classifications, and a label matching no
recognized substring raises a fatal `ValueError` for that bill. -/
theorem claim_C4_bill_type (bt : String) :
    (pyContains "Joint Resolution" bt = true →
      pyContains "General Bill" bt = false →
      pyContains "Concurrent Resolution" bt = false →
      scrapeDetailsBillType bt = .ok "joint resolution" ∧ pyContains "Resolution" bt = true)
    ∧ (pyContains "Concurrent Resolution" bt = true →
        pyContains "General Bill" bt = false →
        scrapeDetailsBillType bt = .ok "concurrent resolution")
    ∧ (∀ r, scrapeDetailsBillType bt = .ok r →
        r ∈ (["bill", "concurrent resolution", "joint resolution", "resolution"] : List String))
    ∧ (pyContains "General Bill" bt = false →
        pyContains "Concurrent Resolution" bt = false →
        pyContains "Joint Resolution" bt = false →
        pyContains "Resolution" bt = false →
        scrapeDetailsBillType bt = .error ("unknown bill type: " ++ bt)) := by
  refine ⟨?_, ?_, ?_, ?_⟩
  · intro hj hg hc
    have hr : pyContains "Resolution" bt = true := by
      have : "Joint Resolution".data = "Joint ".data ++ "Resolution".data := by decide
      unfold pyContains at hj ⊢
      rw [this] at hj
      exact listContainsSub_suffix hj
    exact ⟨by simp [scrapeDetailsBillType, hj, hg, hc], hr⟩
  · intro hc hg
    simp [scrapeDetailsBillType, hc, hg]
  · intro r h
    unfold scrapeDetailsBillType at h
    split at h
    · simp at h; simp [h]
    · split at h
      · simp at h; simp [h]
      · split at h
        · simp at h; simp [h]
        · split at h
          · simp at h; simp [h]
          · simp at h
  · intro hg hc hj hr
    simp [scrapeDetailsBillType, hg, hc, hj, hr]

/-- Witness for C4 at the concrete label `Joint Resolution`. -/
theorem claim_C4_witness :
    scrapeDetailsBillType "Joint Resolution" = .ok "joint resolution"
    ∧ pyContains "Resolution" "Joint Resolution" = true :=
  (claim_C4_bill_type "Joint Resolution").1 (by decide) (by decide) (by decide)

/-! ### Claims C5 and C6: roll-call roster parser -/

theorem rcProcessLine_yeas (st : RCState) (raw : String)
    (h : pyStartsWith "YEAS".data (pyStrip raw).data = true) :
    rcProcessLine st raw = ({ st with current_vfunc := some .yesF }, []) := by
  simp [rcProcessLine, h]

theorem rcProcessLine_ayes (st : RCState) (raw : String)
    (h : pyStartsWith "AYES".data (pyStrip raw).data = true) :
    rcProcessLine st raw = ({ st with current_vfunc := some .yesF }, []) := by
  simp [rcProcessLine, h]

theorem rcProcessLine_nays (st : RCState) (raw : String)
    (h : pyStartsWith "NAYS".data (pyStrip raw).data = true) :
    rcProcessLine st raw = ({ st with current_vfunc := some .noF }, []) := by
  obtain ⟨t, ht⟩ := (pyStartsWith_iff _ _).mp h
  simp [rcProcessLine, ht, pyStartsWith]

theorem rcProcessLine_no_option (st : RCState) (raw : String)
    (hst : st.option = none) (h : setsOptionHeader raw = false) :
    (rcProcessLine st raw).1.option = none
    ∧ ∀ r ∈ (rcProcessLine st raw).2, r.isPlain = true := by
  simp only [setsOptionHeader, Bool.or_eq_false_iff] at h
  obtain ⟨⟨⟨hexc, hnv⟩, habs⟩, hpair⟩ := h
  unfold rcProcessLine
  simp only [hexc, hnv, habs, hpair, Bool.false_eq_true, if_false]
  split_ifs with h1 h2 h3
  · simp [hst]
  · simp [hst]
  · simp [hst]
  · cases hv : st.current_vfunc with
    | none => simp [hst]
    | some f =>
      constructor
      · simp [hst]
      · intro r hr
        have hr2 : r ∈ (pySplitWs3 (pyStrip raw).data).filterMap
            (fun name => if name = [] then none else some (mkRollcallCall f st.option name)) := hr
        rw [List.mem_filterMap] at hr2
        obtain ⟨name, _, hname⟩ := hr2
        by_cases hn : name = []
        · rw [if_pos hn] at hname
          exact absurd hname (by simp)
        · rw [if_neg hn, hst] at hname
          injection hname with h4
          rw [← h4]
          rfl

theorem rcRun_plain (lines : List String) :
    ∀ st : RCState, st.option = none →
      (∀ l ∈ lines, setsOptionHeader l = false) →
      ∀ r ∈ rcRun st lines, r.isPlain = true := by
  induction lines with
  | nil => intro st _ _ r hr; simp [rcRun] at hr
  | cons l rest ih =>
    intro st hst hall r hr
    obtain ⟨hopt, hrecs⟩ := rcProcessLine_no_option st l hst (hall l (by simp))
    rw [rcRun] at hr
    rw [List.mem_append] at hr
    rcases hr with hr | hr
    · exact hrecs r hr
    · exact ih (rcProcessLine st l).1 hopt (fun x hx => hall x (by simp [hx])) r hr

/-- Counterexample for C5 as stated: in a document where an `EXCUSED`
header precedes the `YEAS` header, the name after `YEAS` is recorded
through `vote.yes` but still carries the stale `excused` option
argument — not "no option tag" as the claim asserts. -/
theorem claim_C5_counterexample :
    scrape_rollcall ["EXCUSED", "YEAS", "Smith"] =
      [.withOpt .yesF "excused" "Smith"]
    ∧ scrape_rollcall ["EXCUSED", "YEAS", "Smith"] ≠ [.plain .yesF "Smith"]
    ∧ yesNames (scrape_rollcall ["EXCUSED", "YEAS", "Smith"]) = [] :=
  ⟨by decide, by decide, by decide⟩

/-- Claim C5 (amended): a line starting with `YEAS` or `AYES` switches
the recording function to the yes bucket and `NAYS` to the no bucket,
but neither resets the option tag; consequently names after these
headers are recorded with no option tag exactly in documents where no
earlier `EXCUSED`, `NOT VOTING`, `ABSTAIN` or `PAIRED` header has set
it — in such documents every recording call is option-free. -/
theorem claim_C5_roster_headers :
    (∀ (st : RCState) (raw : String),
        pyStartsWith "YEAS".data (pyStrip raw).data = true →
        rcProcessLine st raw = ({ st with current_vfunc := some .yesF }, []))
    ∧ (∀ (st : RCState) (raw : String),
        pyStartsWith "AYES".data (pyStrip raw).data = true →
        rcProcessLine st raw = ({ st with current_vfunc := some .yesF }, []))
    ∧ (∀ (st : RCState) (raw : String),
        pyStartsWith "NAYS".data (pyStrip raw).data = true →
        rcProcessLine st raw = ({ st with current_vfunc := some .noF }, []))
    ∧ (∀ lines : List String,
        (∀ l ∈ lines, setsOptionHeader l = false) →
        ∀ r ∈ scrape_rollcall lines, r.isPlain = true) :=
  ⟨rcProcessLine_yeas, rcProcessLine_ayes, rcProcessLine_nays,
    fun lines h => rcRun_plain lines { current_vfunc := none, option := none } rfl h⟩

/-- Witness for C5 at concrete states and lines. -/
theorem claim_C5_witness :
    rcProcessLine { current_vfunc := none, option := none } "YEAS"
      = ({ current_vfunc := some .yesF, option := none }, [])
    ∧ rcProcessLine { current_vfunc := some .voteF, option := some "excused" } "NAYS"
      = ({ current_vfunc := some .noF, option := some "excused" }, [])
    ∧ ∀ r ∈ scrape_rollcall ["YEAS", "Smith"], r.isPlain = true :=
  ⟨claim_C5_roster_headers.1 _ "YEAS" (by decide),
    claim_C5_roster_headers.2.2.1 _ "NAYS" (by decide),
    claim_C5_roster_headers.2.2.2 ["YEAS", "Smith"] (by decide)⟩

theorem rcProcessLine_blank (st : RCState) (raw : String)
    (h : pyStrip raw = "") : rcProcessLine st raw = (st, []) := by
  have hd : (pyStrip raw).data = [] := by rw [h]
  simp [rcProcessLine, hd, pyStartsWith]

theorem rcProcessLine_page (st : RCState) (raw : String)
    (h : pyStartsWith "Page ".data (pyStrip raw).data = true) :
    rcProcessLine st raw = (st, []) := by
  obtain ⟨t, ht⟩ := (pyStartsWith_iff _ _).mp h
  simp [rcProcessLine, ht, pyStartsWith]

theorem rcProcessLine_active (st : RCState) (f : VFuncTag) (raw : String)
    (hv : st.current_vfunc = some f)
    (hhdr : isRosterHeader raw = false)
    (hblank : (pyStrip raw).data ≠ [])
    (hpage : pyStartsWith "Page ".data (pyStrip raw).data = false) :
    rcProcessLine st raw =
      (st, (pySplitWs3 (pyStrip raw).data).filterMap
        (fun name => if name = [] then none else some (mkRollcallCall f st.option name))) := by
  simp only [isRosterHeader, setsOptionHeader, Bool.or_eq_false_iff] at hhdr
  obtain ⟨⟨⟨hy, ha⟩, hn⟩, ⟨⟨⟨hexc, hnv⟩, habs⟩, hpair⟩⟩ := hhdr
  unfold rcProcessLine
  simp [hy, ha, hn, hexc, hnv, habs, hpair, hblank, hpage, hv]

/-- Counterexample for C6 as stated: on a line whose names are
separated by three tab characters, the source regex `\s{3,}` splits
into two names, while the claim's split on runs of three or more
space characters would keep the line as a single token, so the
claim's predicted recording differs from the code's. -/
theorem claim_C6_counterexample :
    scrape_rollcall ["YEAS", "Smith\t\t\tJones"] =
      [.plain .yesF "Smith", .plain .yesF "Jones"]
    ∧ (specSplitOnSpaceRuns (pyStrip "Smith\t\t\tJones").data).filterMap
        (fun name => if name = [] then none else some (mkRollcallCall .yesF none name)) =
        [.plain .yesF "Smith\t\t\tJones"]
    ∧ scrape_rollcall ["YEAS", "Smith\t\t\tJones"] ≠ [.plain .yesF "Smith\t\t\tJones"] :=
  ⟨by decide, by decide, by decide⟩

/-- Claim C6 (amended): blank lines and lines starting with `Page `
are ignored without changing the bucket or option; every other line
while a bucket is active is split into name tokens on runs of three
or more consecutive *whitespace* characters (`\s{3,}`, not only
spaces), each non-empty token trimmed and recorded into the active
bucket; the concrete document `YEAS / Smith   Jones   Lee / NAYS /
Doe` gives yes `[Smith, Jones, Lee]`, no `[Doe]`, other `[]`. -/
theorem claim_C6_roster_split :
    (∀ (st : RCState) (raw : String), pyStrip raw = "" →
        rcProcessLine st raw = (st, []))
    ∧ (∀ (st : RCState) (raw : String),
        pyStartsWith "Page ".data (pyStrip raw).data = true →
        rcProcessLine st raw = (st, []))
    ∧ (∀ (st : RCState) (f : VFuncTag) (raw : String),
        st.current_vfunc = some f →
        isRosterHeader raw = false →
        (pyStrip raw).data ≠ [] →
        pyStartsWith "Page ".data (pyStrip raw).data = false →
        rcProcessLine st raw =
          (st, (pySplitWs3 (pyStrip raw).data).filterMap
            (fun name => if name = [] then none else some (mkRollcallCall f st.option name))))
    ∧ scrape_rollcall ["YEAS", "Smith   Jones   Lee", "NAYS", "Doe"] =
        [.plain .yesF "Smith", .plain .yesF "Jones", .plain .yesF "Lee", .plain .noF "Doe"]
    ∧ yesNames (scrape_rollcall ["YEAS", "Smith   Jones   Lee", "NAYS", "Doe"]) =
        ["Smith", "Jones", "Lee"]
    ∧ noNames (scrape_rollcall ["YEAS", "Smith   Jones   Lee", "NAYS", "Doe"]) = ["Doe"]
    ∧ otherNames (scrape_rollcall ["YEAS", "Smith   Jones   Lee", "NAYS", "Doe"]) = [] :=
  ⟨rcProcessLine_blank, rcProcessLine_page, rcProcessLine_active,
    by decide, by decide, by decide, by decide⟩

/-- Witness for C6 at concrete states and lines. -/
theorem claim_C6_witness :
    rcProcessLine { current_vfunc := some .yesF, option := none } "   "
      = ({ current_vfunc := some .yesF, option := none }, [])
    ∧ rcProcessLine { current_vfunc := some .yesF, option := none } "Page 3"
      = ({ current_vfunc := some .yesF, option := none }, [])
    ∧ rcProcessLine { current_vfunc := some .yesF, option := none } "Smith   Jones"
      = ({ current_vfunc := some .yesF, option := none },
          [.plain .yesF "Smith", .plain .yesF "Jones"]) := by
  refine ⟨claim_C6_roster_split.1 _ "   " (by decide),
    claim_C6_roster_split.2.1 _ "Page 3" (by decide), ?_⟩
  have h := claim_C6_roster_split.2.2.1 { current_vfunc := some .yesF, option := none }
    .yesF "Smith   Jones" rfl (by decide) (by decide) (by decide)
  rw [h]
  decide

/-! ### Claim C9: HTTP protocol downgrade wrapper -/

/-- Counterexample for C9 as stated: a `downgraded_http_get` whose
underlying request raises leaves the process-wide version settings
downgraded — they do not equal their values from before the call,
because the decorator has no `try/finally`. -/
theorem claim_C9_counterexample :
    (downgraded_http_get { vsn := 11, vsnStr := "HTTP/1.1" } raisingGet
        "https://www.scstatehouse.gov" { vsn := 11, vsnStr := "HTTP/1.1" }).1
      = { vsn := 10, vsnStr := "HTTP/1.0" }
    ∧ (downgraded_http_get { vsn := 11, vsnStr := "HTTP/1.1" } raisingGet
        "https://www.scstatehouse.gov" { vsn := 11, vsnStr := "HTTP/1.1" }).1
      ≠ { vsn := 11, vsnStr := "HTTP/1.1" } :=
  ⟨by decide, by decide⟩

/-- Claim C9 (amended): the decorator invokes the wrapped request on
the downgraded settings and, whenever the request returns normally,
restores the import-time captured values `s0` afterwards (equal to
the pre-call values in a run where nothing else mutates them); when
the request raises, the exception propagates without the undo, so the
settings remain as the failed request left them. -/
theorem claim_C9_http_toggle :
    (∀ (E A : Type) (s0 s s2 : HttpState)
        (method : HttpState → HttpState × Except E A) (a : A),
        method (downgrade_http_version s) = (s2, .ok a) →
        toggle_http_version s0 method s = (s0, .ok a))
    ∧ (∀ (E A : Type) (s0 s s2 : HttpState)
        (method : HttpState → HttpState × Except E A) (e : E),
        method (downgrade_http_version s) = (s2, .error e) →
        toggle_http_version s0 method s = (s2, .error e)) := by
  constructor
  · intro E A s0 s s2 method a h
    simp [toggle_http_version, h, undo_downgrade_http_version]
  · intro E A s0 s s2 method e h
    simp [toggle_http_version, h]

/-- Witness for C9: a succeeding request run through the decorator
restores the captured settings. -/
theorem claim_C9_witness :
    toggle_http_version { vsn := 11, vsnStr := "HTTP/1.1" }
      (fun st => (st, (Except.ok () : Except Unit Unit))) { vsn := 11, vsnStr := "HTTP/1.1" }
      = ({ vsn := 11, vsnStr := "HTTP/1.1" }, (Except.ok () : Except Unit Unit)) :=
  claim_C9_http_toggle.1 Unit Unit { vsn := 11, vsnStr := "HTTP/1.1" }
    { vsn := 11, vsnStr := "HTTP/1.1" } { vsn := 10, vsnStr := "HTTP/1.0" }
    (fun st => (st, (Except.ok () : Except Unit Unit))) () (by decide)

/-! ### Claim C2: vote count consistency -/

/-- Claim C2: every row accepted by the row parser has its `other`
count equal to the sum of the not-voting, excused, abstain and
present cells with `yes + no + other` equal to the reported total;
and a row whose parsed counts violate that equality raises
`AssertionError` instead of being truncated or skipped. -/
theorem claim_C2_count_consistency :
    (∀ (pdf : String → List String) (timestamp motion vt yeas nays nv exc pres abst total result : PCell)
        (rd : RowData),
        parseVoteRow pdf timestamp motion vt yeas nays nv exc pres abst total result = .ok rd →
        ∃ a b c d tv, pyInt nv.text = .ok a ∧ pyInt exc.text = .ok b ∧
          pyInt abst.text = .ok c ∧ pyInt pres.text = .ok d ∧ pyInt total.text = .ok tv ∧
          rd.othersN = a + b + c + d ∧ rd.yeasN + rd.naysN + rd.othersN = tv)
    ∧ (∀ (pdf : String → List String) (timestamp motion vt yeas nays nv exc pres abst total result : PCell)
        (ts : PyDateTime) (yv nw a b c d tv : Int),
        strptimeVote (pyReplaceNbsp timestamp.text) = .ok ts →
        pyInt yeas.text = .ok yv → pyInt nays.text = .ok nw →
        pyInt nv.text = .ok a → pyInt exc.text = .ok b →
        pyInt abst.text = .ok c → pyInt pres.text = .ok d →
        pyInt total.text = .ok tv →
        yv + nw + (a + b + c + d) ≠ tv →
        parseVoteRow pdf timestamp motion vt yeas nays nv exc pres abst total result =
          .error .assertionError)
    ∧ (vhRun samplePdf "b" "u" [sampleBadCountRow] []).err = some .assertionError
    ∧ (vhRun samplePdf "b" "u" [sampleBadCountRow] []).votes = [] := by
  refine ⟨?_, ?_, by decide, by decide⟩
  · intro pdf timestamp motion vt yeas nays nv exc pres abst total result rd h
    unfold parseVoteRow at h
    cases h1 : strptimeVote (pyReplaceNbsp timestamp.text) with
    | error e => simp [h1] at h
    | ok ts =>
    simp only [h1] at h
    cases h2 : pyInt yeas.text with
    | error e => simp [h2] at h
    | ok yv =>
    simp only [h2] at h
    cases h3 : pyInt nays.text with
    | error e => simp [h3] at h
    | ok nw =>
    simp only [h3] at h
    cases h4 : pyInt nv.text with
    | error e => simp [h4] at h
    | ok a =>
    simp only [h4] at h
    cases h5 : pyInt exc.text with
    | error e => simp [h5] at h
    | ok b =>
    simp only [h5] at h
    cases h6 : pyInt abst.text with
    | error e => simp [h6] at h
    | ok c =>
    simp only [h6] at h
    cases h7 : pyInt pres.text with
    | error e => simp [h7] at h
    | ok d =>
    simp only [h7] at h
    cases h8 : pyInt total.text with
    | error e => simp [h8] at h
    | ok tv =>
    simp only [h8] at h
    by_cases hsum : yv + nw + (a + b + c + d) = tv
    · rw [if_pos hsum] at h
      cases ha : vt.anchors with
      | nil => simp [ha] at h
      | cons p prest =>
        obtain ⟨lt, lh⟩ := p
        rw [ha] at h
        have hrd := Except.ok.inj h
        refine ⟨a, b, c, d, tv, rfl, rfl, rfl, rfl, rfl, ?_, ?_⟩
        · rw [← hrd]
        · rw [← hrd]
          exact hsum
    · rw [if_neg hsum] at h
      simp at h
  · intro pdf timestamp motion vt yeas nays nv exc pres abst total result
      ts yv nw a b c d tv h1 h2 h3 h4 h5 h6 h7 h8 hne
    unfold parseVoteRow
    simp only [h1, h2, h3, h4, h5, h6, h7, h8]
    rw [if_neg hne]

/-- Witness for C2: the parser applied to a concrete row whose counts
sum to 5 but whose reported total is 9 raises `AssertionError`. -/
theorem claim_C2_witness :
    parseVoteRow samplePdf sampleTsCell sampleMotionCell sampleVoteCell (cellT "3") (cellT "2")
      (cellT "0") (cellT "0") (cellT "0") (cellT "0") (cellT "9") (cellT "Passed") =
      .error .assertionError :=
  claim_C2_count_consistency.2.1 samplePdf sampleTsCell sampleMotionCell sampleVoteCell
    (cellT "3") (cellT "2") (cellT "0") (cellT "0") (cellT "0") (cellT "0") (cellT "9")
    (cellT "Passed") { year := 2021, month := 1, day := 12, hour := 10, minute := 30 }
    3 2 0 0 0 0 9 (by decide) (by decide) (by decide) (by decide) (by decide) (by decide)
    (by decide) (by decide) (by decide)

/-! ### Row and run lemmas for the vote history parser -/

theorem processRow11_ok_none (pdf : String → List String) (bill vurl : String)
    (seen : List String) (timestamp motion vt yeas nays nv exc pres abst total result : PCell)
    (seen' : List String) (w : List String)
    (h : processRow11 pdf bill vurl seen timestamp motion vt yeas nays nv exc pres abst total result
        = .ok (none, seen', w)) : seen' = seen := by
  unfold processRow11 at h
  cases hp : parseVoteRow pdf timestamp motion vt yeas nays nv exc pres abst total result with
  | error e => simp [hp] at h
  | ok rd =>
    simp only [hp] at h
    by_cases hm : rd.href ∈ seen
    · rw [if_pos hm] at h
      have := Except.ok.inj h
      exact (Prod.mk.inj (Prod.mk.inj this).2).1.symm
    · rw [if_neg hm] at h
      have := (Prod.mk.inj (Except.ok.inj h)).1
      simp at this

theorem processRow11_ok_some (pdf : String → List String) (bill vurl : String)
    (seen : List String) (timestamp motion vt yeas nays nv exc pres abst total result : PCell)
    (v : SCVoteEvent) (seen' : List String) (w : List String)
    (h : processRow11 pdf bill vurl seen timestamp motion vt yeas nays nv exc pres abst total result
        = .ok (some v, seen', w)) :
    ∃ u, v.dedupe_key = some u ∧ u ∉ seen ∧ seen' = u :: seen
      ∧ v.sources = [vurl, u] ∧ v.classification = "passage" := by
  unfold processRow11 at h
  cases hp : parseVoteRow pdf timestamp motion vt yeas nays nv exc pres abst total result with
  | error e => simp [hp] at h
  | ok rd =>
    simp only [hp] at h
    by_cases hm : rd.href ∈ seen
    · rw [if_pos hm] at h
      have := (Prod.mk.inj (Except.ok.inj h)).1
      simp at this
    · rw [if_neg hm] at h
      have h2 := Except.ok.inj h
      have hv := Option.some.inj (Prod.mk.inj h2).1
      have hs := (Prod.mk.inj (Prod.mk.inj h2).2).1
      refine ⟨rd.href, ?_, hm, hs.symm, ?_, ?_⟩
      · rw [← hv]
      · rw [← hv]
        rfl
      · rw [← hv]
        rfl

theorem vhRun_spec (pdf : String → List String) (bill vurl : String) :
    ∀ (rows : List (List PCell)) (seen : List String),
      (∀ s ∈ seen, s ∈ (vhRun pdf bill vurl rows seen).seen)
      ∧ (∀ v ∈ (vhRun pdf bill vurl rows seen).votes,
          ∃ u, v.dedupe_key = some u ∧ u ∉ seen ∧ u ∈ (vhRun pdf bill vurl rows seen).seen
            ∧ v.sources = [vurl, u] ∧ v.classification = "passage")
      ∧ ((vhRun pdf bill vurl rows seen).votes.map SCVoteEvent.dedupe_key).Nodup := by
  intro rows
  induction rows with
  | nil =>
    intro seen
    exact ⟨fun s hs => hs, by simp [vhRun], by simp [vhRun]⟩
  | cons tds rest ih =>
    intro seen
    rcases tds with _ | ⟨c0, _ | ⟨c1, _ | ⟨c2, _ | ⟨c3, _ | ⟨c4, _ | ⟨c5, _ | ⟨c6, _ | ⟨c7, _ | ⟨c8, _ | ⟨c9, _ | ⟨c10, _ | ⟨c11, tds2⟩⟩⟩⟩⟩⟩⟩⟩⟩⟩⟩⟩
    any_goals exact ih seen
    have hred : vhRun pdf bill vurl ([c0, c1, c2, c3, c4, c5, c6, c7, c8, c9, c10] :: rest) seen =
        match processRow11 pdf bill vurl seen c0 c1 c2 c3 c4 c5 c6 c7 c8 c9 c10 with
        | .error e => { votes := [], seen := seen, warnings := [], err := some e }
        | .ok (none, seen', w) =>
          { votes := (vhRun pdf bill vurl rest seen').votes,
            seen := (vhRun pdf bill vurl rest seen').seen,
            warnings := w ++ (vhRun pdf bill vurl rest seen').warnings,
            err := (vhRun pdf bill vurl rest seen').err }
        | .ok (some v, seen', w) =>
          { votes := v :: (vhRun pdf bill vurl rest seen').votes,
            seen := (vhRun pdf bill vurl rest seen').seen,
            warnings := w ++ (vhRun pdf bill vurl rest seen').warnings,
            err := (vhRun pdf bill vurl rest seen').err } := rfl
    rw [hred]
    cases heq : processRow11 pdf bill vurl seen c0 c1 c2 c3 c4 c5 c6 c7 c8 c9 c10 with
    | error e =>
      exact ⟨fun s hs => hs, by simp, by simp⟩
    | ok trip =>
      obtain ⟨ov, seen2, w⟩ := trip
      cases ov with
      | none =>
        have hseen := processRow11_ok_none pdf bill vurl seen c0 c1 c2 c3 c4 c5
          c6 c7 c8 c9 c10 seen2 w heq
        rw [hseen]
        exact ih seen
      | some v =>
        obtain ⟨u, hkey, hnot, hseen2, hsrc, hcls⟩ :=
          processRow11_ok_some pdf bill vurl seen c0 c1 c2 c3 c4 c5
            c6 c7 c8 c9 c10 v seen2 w heq
        subst hseen2
        obtain ⟨ihmono, ihvotes, ihnodup⟩ := ih (u :: seen)
        refine ⟨?_, ?_, ?_⟩
        · intro s hs
          exact ihmono s (by simp [hs])
        · intro v2 hv2
          rcases List.mem_cons.mp hv2 with hv2 | hv2
          · subst hv2
            exact ⟨u, hkey, hnot, ihmono u (by simp), hsrc, hcls⟩
          · obtain ⟨u2, hkey2, hnot2, hin2, hsrc2, hcls2⟩ := ihvotes v2 hv2
            exact ⟨u2, hkey2, fun hmem => hnot2 (by simp [hmem]), hin2, hsrc2, hcls2⟩
        · rw [List.map_cons, List.nodup_cons]
          refine ⟨?_, ihnodup⟩
          intro hmem
          rw [List.mem_map] at hmem
          obtain ⟨v2, hv2, hkeq⟩ := hmem
          obtain ⟨u2, hkey2, hnot2, _, _, _⟩ := ihvotes v2 hv2
          rw [hkey2, hkey] at hkeq
          exact hnot2 (by simp [Option.some.inj hkeq])

theorem runVoteHistories_spec (pdf : String → List String) (bill : String) :
    ∀ (pages : List (String × List (List PCell))) (seen : List String),
      (∀ s ∈ seen, s ∈ (runVoteHistories pdf bill pages seen).seen)
      ∧ (∀ v ∈ (runVoteHistories pdf bill pages seen).votes,
          ∃ u, v.dedupe_key = some u ∧ u ∉ seen
            ∧ u ∈ (runVoteHistories pdf bill pages seen).seen
            ∧ v.sources.get? 1 = some u ∧ v.classification = "passage")
      ∧ ((runVoteHistories pdf bill pages seen).votes.map SCVoteEvent.dedupe_key).Nodup := by
  intro pages
  induction pages with
  | nil =>
    intro seen
    exact ⟨fun s hs => hs, by simp [runVoteHistories], by simp [runVoteHistories]⟩
  | cons page pages ih =>
    intro seen
    obtain ⟨vurl, pageRows⟩ := page
    obtain ⟨rmono, rvotes, rnodup⟩ := vhRun_spec pdf bill vurl (pageRows.drop 2) seen
    have hred : runVoteHistories pdf bill ((vurl, pageRows) :: pages) seen =
        match (scrape_vote_history pdf bill vurl pageRows seen).err with
        | some e =>
          { votes := (scrape_vote_history pdf bill vurl pageRows seen).votes,
            seen := (scrape_vote_history pdf bill vurl pageRows seen).seen,
            warnings := (scrape_vote_history pdf bill vurl pageRows seen).warnings,
            err := some e }
        | none =>
          { votes := (scrape_vote_history pdf bill vurl pageRows seen).votes ++
              (runVoteHistories pdf bill pages (scrape_vote_history pdf bill vurl pageRows seen).seen).votes,
            seen := (runVoteHistories pdf bill pages (scrape_vote_history pdf bill vurl pageRows seen).seen).seen,
            warnings := (scrape_vote_history pdf bill vurl pageRows seen).warnings ++
              (runVoteHistories pdf bill pages (scrape_vote_history pdf bill vurl pageRows seen).seen).warnings,
            err := (runVoteHistories pdf bill pages (scrape_vote_history pdf bill vurl pageRows seen).seen).err } := rfl
    rw [hred]
    cases herr : (scrape_vote_history pdf bill vurl pageRows seen).err with
    | some e =>
      refine ⟨fun s hs => rmono s hs, ?_, rnodup⟩
      intro v hv
      obtain ⟨u, hk, hn, hi, hsrc, hcls⟩ := rvotes v hv
      exact ⟨u, hk, hn, hi, by rw [hsrc]; rfl, hcls⟩
    | none =>
      obtain ⟨imono, ivotes, inodup⟩ := ih ((scrape_vote_history pdf bill vurl pageRows seen).seen)
      refine ⟨?_, ?_, ?_⟩
      · intro s hs
        exact imono s (rmono s hs)
      · intro v hv
        rcases List.mem_append.mp hv with hv | hv
        · obtain ⟨u, hk, hn, hi, hsrc, hcls⟩ := rvotes v hv
          exact ⟨u, hk, hn, imono u hi, by rw [hsrc]; rfl, hcls⟩
        · obtain ⟨u, hk, hn, hi, hsrc, hcls⟩ := ivotes v hv
          exact ⟨u, hk, fun hs => hn (rmono u hs), hi, hsrc, hcls⟩
      · rw [List.map_append, List.nodup_append]
        refine ⟨rnodup, inodup, ?_⟩
        intro a ha hb
        rw [List.mem_map] at ha hb
        obtain ⟨v1, hv1, hk1⟩ := ha
        obtain ⟨v2, hv2, hk2⟩ := hb
        obtain ⟨u1, hku1, _, hin1, _, _⟩ := rvotes v1 hv1
        obtain ⟨u2, hku2, hnot2, _, _, _⟩ := ivotes v2 hv2
        rw [hku1] at hk1
        rw [hku2] at hk2
        rw [← hk1] at hk2
        exact hnot2 (Option.some.inj hk2 ▸ hin1)

/-! ### Claim C3: cross-run vote deduplication -/

/-- Claim C3: across one whole scrape run (the seen set starts empty
and is threaded through every vote-listing page), the yielded
VoteEvents carry pairwise distinct dedupe keys — at most one
VoteEvent per roll-call document URL — every yielded VoteEvent has
its dedupe key set to its roll-call document URL (its second source);
and a second row linking an already-seen document yields nothing,
logged as a duplicate, with no error. -/
theorem claim_C3_vote_dedup :
    (∀ (pdf : String → List String) (bill : String)
        (pages : List (String × List (List PCell))),
        ((runVoteHistories pdf bill pages []).votes.map SCVoteEvent.dedupe_key).Nodup
        ∧ ∀ v ∈ (runVoteHistories pdf bill pages []).votes,
            ∃ u, v.dedupe_key = some u ∧ v.sources.get? 1 = some u)
    ∧ (runVoteHistories samplePdf "b" [("u", [[], [], sampleGoodRow, sampleGoodRow])] []).votes.length = 1
    ∧ (runVoteHistories samplePdf "b" [("u", [[], [], sampleGoodRow, sampleGoodRow])] []).err = none
    ∧ (runVoteHistories samplePdf "b" [("u", [[], [], sampleGoodRow, sampleGoodRow])] []).warnings =
        ["duplicate usage of http://doc1.pdf, skipping"] := by
  refine ⟨?_, by decide, by decide, by decide⟩
  intro pdf bill pages
  obtain ⟨_, hvotes, hnodup⟩ := runVoteHistories_spec pdf bill pages []
  refine ⟨hnodup, ?_⟩
  intro v hv
  obtain ⟨u, hk, _, _, hsrc, _⟩ := hvotes v hv
  exact ⟨u, hk, hsrc⟩

/-- Witness for C3: the single vote of a concrete run has its dedupe
key equal to its roll-call document source. -/
theorem claim_C3_witness :
    ∃ u, ((runVoteHistories samplePdf "b" [("u", [[], [], sampleGoodRow])] []).votes.headD
        dummyVote).dedupe_key = some u
      ∧ ((runVoteHistories samplePdf "b" [("u", [[], [], sampleGoodRow])] []).votes.headD
        dummyVote).sources.get? 1 = some u :=
  (claim_C3_vote_dedup.1 samplePdf "b" [("u", [[], [], sampleGoodRow])]).2 _ (by decide)

/-! ### Claim C8: header rows and irregular rows -/

/-- Claim C8: the first two table rows are skipped as headers, and a
data row whose cell count differs from 11 is logged as an irregular
row and skipped non-fatally — no vote for it, no error, and parsing
continues with the remaining rows. -/
theorem claim_C8_irregular_rows :
    (∀ (pdf : String → List String) (bill vurl : String) (r1 r2 : List PCell)
        (rest : List (List PCell)) (seen : List String),
        scrape_vote_history pdf bill vurl (r1 :: r2 :: rest) seen = vhRun pdf bill vurl rest seen)
    ∧ (∀ (pdf : String → List String) (bill vurl : String) (row : List PCell)
        (rest : List (List PCell)) (seen : List String), row.length ≠ 11 →
        vhRun pdf bill vurl (row :: rest) seen =
          { votes := (vhRun pdf bill vurl rest seen).votes,
            seen := (vhRun pdf bill vurl rest seen).seen,
            warnings := ("irregular vote row: " ++ vurl) :: (vhRun pdf bill vurl rest seen).warnings,
            err := (vhRun pdf bill vurl rest seen).err })
    ∧ (scrape_vote_history samplePdf "b" "u" [[], [], [cellT "x"], sampleGoodRow] []).votes.length = 1
    ∧ (scrape_vote_history samplePdf "b" "u" [[], [], [cellT "x"], sampleGoodRow] []).err = none
    ∧ (scrape_vote_history samplePdf "b" "u" [[], [], [cellT "x"], sampleGoodRow] []).warnings =
        ["irregular vote row: u"] := by
  refine ⟨fun pdf bill vurl r1 r2 rest seen => rfl, ?_, by decide, by decide, by decide⟩
  intro pdf bill vurl row rest seen h
  rcases row with _ | ⟨c0, _ | ⟨c1, _ | ⟨c2, _ | ⟨c3, _ | ⟨c4, _ | ⟨c5, _ | ⟨c6, _ | ⟨c7, _ | ⟨c8, _ | ⟨c9, _ | ⟨c10, _ | ⟨c11, tds2⟩⟩⟩⟩⟩⟩⟩⟩⟩⟩⟩⟩
  all_goals first
    | rfl
    | exact absurd rfl h

/-- Witness for C8 at a concrete three-cell row. -/
theorem claim_C8_witness :
    vhRun samplePdf "b" "u" [[cellT "x", cellT "y", cellT "z"]] [] =
      { votes := [], seen := [], warnings := ["irregular vote row: u"], err := none } := by
  have h := claim_C8_irregular_rows.2.1 samplePdf "b" "u" [cellT "x", cellT "y", cellT "z"]
    [] [] (by decide)
  rw [h]
  decide

/-! ### Claim C10: fixed vote classification -/

/-- Claim C10: every VoteEvent yielded by the vote history parser
carries the fixed classification `passage`, regardless of the row's
motion text, result or chamber. -/
theorem claim_C10_classification_passage :
    ∀ (pdf : String → List String) (bill vurl : String) (rows : List (List PCell))
      (seen : List String) (v : SCVoteEvent),
      v ∈ (vhRun pdf bill vurl rows seen).votes → v.classification = "passage" := by
  intro pdf bill vurl rows seen v hv
  obtain ⟨_, hvotes, _⟩ := vhRun_spec pdf bill vurl rows seen
  obtain ⟨u, _, _, _, _, hcls⟩ := hvotes v hv
  exact hcls

/-- Witness for C10 at a concrete run with one vote. -/
theorem claim_C10_witness :
    ((vhRun samplePdf "b" "u" [sampleGoodRow] []).votes.headD dummyVote).classification =
      "passage" :=
  claim_C10_classification_passage samplePdf "b" "u" [sampleGoodRow] [] _ (by decide)
